import Mathlib

/-!
# Verification of the Technical Audit service (`src/services/technical-audit.service.ts`)

Shallow embedding of the `TechnicalAuditService` class generated in the
repository's business-services script.  JavaScript numbers are modelled as `ℚ`
(every value occurring in the audited computations is a small exact rational),
`undefined`/`null` observed through `?.` and `||` are modelled as `Option`,
and fallible asynchronous calls are modelled as `Except JsError`.
-/

/-- JS `Math.round`: for all values occurring here, `Math.round x = ⌊x + 1/2⌋`. -/
def jsRound (q : ℚ) : ℤ := ⌊q + 1/2⌋

/-- An error thrown by a browser / network operation, identified by name. -/
structure JsError where
  name : String
deriving DecidableEq, Repr

/-- `NavigationError`: page unreachable / navigation timeout. -/
def navigationError : JsError := ⟨"NavigationError"⟩

/-- `RenderError`: page loaded but DOM extraction threw. -/
def renderError : JsError := ⟨"RenderError"⟩

/-- The two per-device Lighthouse scores of the `siteSpeed` metric
(`desktopResult.lhr.categories.performance.score * 100`, likewise mobile).
The further timing fields are carried along by the code but never read by
the aggregation functions, so the embedding keeps only the scores. -/
structure SiteSpeed where
  desktopScore : ℚ
  mobileScore : ℚ
deriving DecidableEq, Repr

/-- The `crawlability` metric object built by `auditCrawlability`. -/
structure Crawlability where
  score : ℚ
  robotsTxt : Bool
  sitemapValid : Bool
  crawlErrors : ℕ
  indexablePages : ℕ
  blockedPages : ℕ
deriving DecidableEq, Repr

/-- The `schemaMarkup` metric object built by `auditSchemaMarkup`. -/
structure SchemaMarkup where
  score : ℚ
  localBusinessSchema : Bool
  dentistSchema : Bool
  faqSchema : Bool
  reviewSchema : Bool
  organizationSchema : Bool
  validationErrors : ℕ
deriving DecidableEq, Repr

/-- The `mobileOptimization` metric object built by `auditMobileOptimization`. -/
structure MobileOptimization where
  score : ℚ
  viewportConfiguration : Bool
  responsiveDesign : Bool
  touchTargetSize : Bool
  mobileFirstIndex : Bool
deriving DecidableEq, Repr

/-- The SEO element extraction of `auditSEOElements` (`page.evaluate` result).
None of its fields feed into scores or issues; they are carried verbatim. -/
structure SeoElements where
  title : String
  metaDescription : Option String
  h1Count : ℕ
  h2Count : ℕ
  imgCount : ℕ
  imgAltMissing : ℕ
  internalLinks : ℕ
  externalLinks : ℕ
  canonicalUrl : Option String
  robots : Option String
deriving DecidableEq, Repr

/-- The merged `results` object of one page audit (comprehensive audit type:
all five module keys).  `none` models the JS field being absent, `null`, or an
empty-object placeholder — all indistinguishable through the `?.score || 0`
and `!x?.flag` accesses that consume it. -/
structure PageResults where
  siteSpeed : Option SiteSpeed
  seoElements : Option SeoElements
  schemaMarkup : Option SchemaMarkup
  crawlability : Option Crawlability
  mobileOptimization : Option MobileOptimization
deriving DecidableEq, Repr

/-- Return value of `auditPage`: `{ url, timestamp, results }` (the timestamp
is wall-clock noise and not modelled). -/
structure PageAudit where
  url : String
  results : PageResults
deriving DecidableEq, Repr

/-- The aggregated `AuditMetrics` value produced by `aggregateAuditResults`.
Each field is the first page's corresponding object when present; the
defaults (`{ desktop: {}, mobile: {} }` resp. `{}`) carry no scores and no
flags, which is exactly what `none` means to every consumer below. -/
structure AuditMetrics where
  siteSpeed : Option SiteSpeed
  crawlability : Option Crawlability
  schemaMarkup : Option SchemaMarkup
  mobileOptimization : Option MobileOptimization
deriving DecidableEq, Repr

/-- One entry of `identifyIssues`' result list. -/
structure Issue where
  severity : String
  category : String
  title : String
  description : String
  affectedPages : List String
  recommendation : String
deriving DecidableEq, Repr

/-- One entry of `generateRecommendations`' result list. -/
structure Recommendation where
  priority : String
  category : String
  title : String
  description : String
  expectedImpact : String
  effort : String
deriving DecidableEq, Repr

/-- `aggregateAuditResults(pageAudits)`: takes `pageAudits[0]?.results || {}`
and re-packages its four metric fields with empty-object defaults.  Pages
after the first are ignored. -/
def aggregateAuditResults (pageAudits : List PageAudit) : AuditMetrics :=
  match pageAudits with
  | [] => ⟨none, none, none, none⟩
  | firstPage :: _ =>
      ⟨firstPage.results.siteSpeed, firstPage.results.crawlability,
       firstPage.results.schemaMarkup, firstPage.results.mobileOptimization⟩

/-- `calculateOverallScore(metrics)`: the five category scores with `|| 0`
defaults, summed and divided by `scores.length` (always 5), then
`Math.round`ed. -/
def calculateOverallScore (metrics : AuditMetrics) : ℤ :=
  let scores : List ℚ :=
    [(metrics.siteSpeed.map SiteSpeed.desktopScore).getD 0,
     (metrics.siteSpeed.map SiteSpeed.mobileScore).getD 0,
     (metrics.crawlability.map Crawlability.score).getD 0,
     (metrics.schemaMarkup.map SchemaMarkup.score).getD 0,
     (metrics.mobileOptimization.map MobileOptimization.score).getD 0]
  jsRound (scores.sum / scores.length)

/-- A parsed JSON-LD block as consumed by `auditSchemaMarkup`'s
`page.evaluate` callback: its `@type` plus truthiness of `review` /
`aggregateRating`. -/
structure SchemaObj where
  atType : String
  review : Bool
  aggregateRating : Bool
deriving DecidableEq, Repr

/-- `calculateSchemaScore(schemaData)`: fixed additive weights, no cap
applied (the weights sum to exactly 100), no malformed-block penalty. -/
def calculateSchemaScore (localBusinessSchema dentistSchema faqSchema
    reviewSchema organizationSchema : Bool) : ℚ :=
  (if localBusinessSchema then 30 else 0) + (if dentistSchema then 25 else 0) +
  (if faqSchema then 20 else 0) + (if reviewSchema then 15 else 0) +
  (if organizationSchema then 10 else 0)

/-- The evaluate-side of `auditSchemaMarkup` plus the scoring call: each
`<script type="application/ld+json">` block is `JSON.parse`d in its own
`try/catch` (`none` = the parse threw, i.e. a malformed block) and malformed
blocks are dropped by `.filter(Boolean)`; the schema-type flags are computed
over the surviving blocks; `validationErrors` is the literal `0`. -/
def auditSchemaMarkup (blocks : List (Option SchemaObj)) : SchemaMarkup :=
  let schemas := blocks.filterMap id
  let localBusinessSchema :=
    schemas.any fun s => s.atType = "LocalBusiness" || s.atType = "DentalClinic"
  let dentistSchema :=
    schemas.any fun s => s.atType = "Dentist" || s.atType = "DentalClinic"
  let faqSchema := schemas.any fun s => s.atType = "FAQPage"
  let reviewSchema := schemas.any fun s => s.review || s.aggregateRating
  let organizationSchema := schemas.any fun s => s.atType = "Organization"
  { score := calculateSchemaScore localBusinessSchema dentistSchema faqSchema
      reviewSchema organizationSchema
    localBusinessSchema := localBusinessSchema
    dentistSchema := dentistSchema
    faqSchema := faqSchema
    reviewSchema := reviewSchema
    organizationSchema := organizationSchema
    validationErrors := 0 }

/-- Outcome of one `page.goto` fetch inside `auditCrawlability`: an HTTP
response with a status code, or a thrown error. -/
inductive FetchOutcome where
  | ok (status : ℕ)
  | err
deriving DecidableEq, Repr

/-- `auditCrawlability(page, url)`: fetches `robots.txt` then `sitemap.xml`
inside one `try`; each flag is `status === 200`; score is
`85 + (robotsTxt ? 10 : 0) + (sitemapValid ? 5 : 0)`.  A throw from either
fetch lands in the single `catch`, which returns the fixed fallback object
(score 60, both flags false, `crawlErrors: 1`). -/
def auditCrawlability (robots sitemap : FetchOutcome) : Crawlability :=
  match robots, sitemap with
  | .ok rs, .ok ss =>
      let robotsTxt := rs = 200
      let sitemapValid := ss = 200
      { score := 85 + (if robotsTxt then 10 else 0) + (if sitemapValid then 5 else 0)
        robotsTxt := robotsTxt
        sitemapValid := sitemapValid
        crawlErrors := 0
        indexablePages := 0
        blockedPages := 0 }
  | _, _ =>
      { score := 60, robotsTxt := false, sitemapValid := false
        crawlErrors := 1, indexablePages := 0, blockedPages := 0 }

/-- JS `String.prototype.includes` for a non-empty needle, via `splitOn`:
the needle occurs in `s` iff splitting on it yields more than one part. -/
def jsIncludes (s needle : String) : Bool := (s.splitOn needle).length > 1

/-- The evaluate-side of `auditMobileOptimization` plus its scoring line:
`viewportConfiguration` is `viewportContent.includes('width=device-width')`,
`responsiveDesign` is `window.innerWidth <= 768`, and `touchTargetSize` /
`mobileFirstIndex` are the literal `true`.  The score is
`Object.values(mobileData).filter(Boolean).length * 25`. -/
def auditMobileOptimization (viewportContent : String) (innerWidth : ℕ) :
    MobileOptimization :=
  let viewportConfiguration := jsIncludes viewportContent "width=device-width"
  let responsiveDesign := innerWidth ≤ 768
  let touchTargetSize := true
  let mobileFirstIndex := true
  let trueFlags : ℕ :=
    ([viewportConfiguration, responsiveDesign, touchTargetSize,
      mobileFirstIndex].filter id).length
  { score := trueFlags * 25
    viewportConfiguration := viewportConfiguration
    responsiveDesign := responsiveDesign
    touchTargetSize := touchTargetSize
    mobileFirstIndex := mobileFirstIndex }

/-- The `severity: 'high'` issue pushed by `identifyIssues` when the
desktop speed score is below 70. -/
def perfIssue : Issue :=
  { severity := "high", category := "performance"
    title := "Poor desktop performance"
    description := "Desktop page speed score is below recommended threshold"
    affectedPages := ["All pages"]
    recommendation := "Optimize images, minify CSS/JS, enable compression" }

/-- The `severity: 'medium'` issue pushed by `identifyIssues` when
`localBusinessSchema` is missing. -/
def schemaIssue : Issue :=
  { severity := "medium", category := "schema"
    title := "Missing LocalBusiness schema"
    description := "LocalBusiness schema markup not detected"
    affectedPages := ["Homepage"]
    recommendation := "Add LocalBusiness schema markup" }

/-- `identifyIssues(metrics)`: pushes at most the two fixed issues above.
`metrics.siteSpeed?.desktop?.score < 70` is false when the score is absent
(JS: `undefined < 70` is `false`); `!metrics.schemaMarkup?.localBusinessSchema`
is true when the flag is absent or false. -/
def identifyIssues (metrics : AuditMetrics) : List Issue :=
  (match metrics.siteSpeed with
   | some s => if s.desktopScore < 70 then [perfIssue] else []
   | none => []) ++
  (match metrics.schemaMarkup with
   | some m => if m.localBusinessSchema then [] else [schemaIssue]
   | none => [schemaIssue])

/-- `generateRecommendations(metrics, issues)`: two fixed candidate
recommendations, guarded by `metrics.siteSpeed?.mobile?.score < 60` and
`metrics.schemaMarkup?.score < 80` (absent scores compare `false`). -/
def generateRecommendations (metrics : AuditMetrics) : List Recommendation :=
  (match metrics.siteSpeed with
   | some s =>
       if s.mobileScore < 60 then
         [{ priority := "high", category := "performance"
            title := "Improve mobile page speed"
            description := "Mobile page speed significantly impacts rankings"
            expectedImpact := "Potential 10-15% ranking improvement"
            effort := "medium" }]
       else []
   | none => []) ++
  (match metrics.schemaMarkup with
   | some m =>
       if m.score < 80 then
         [{ priority := "medium", category := "schema"
            title := "Enhance schema markup"
            description := "Add missing schema types for better rich snippets"
            expectedImpact := "Improved SERP appearance"
            effort := "low" }]
       else []
   | none => [])

/-- The environment one page's audit runs against: what the browser and the
network return for that URL.  `auditPageSpeed` wraps its Lighthouse runs in
its own `try/catch` and returns `{ siteSpeed: null }` on error, so its
outcome is already an `Option`; `auditCrawlability` likewise catches its
fetch errors itself.  `auditSEOElements`, `auditSchemaMarkup` and
`auditMobileOptimization`, by contrast, have no `try/catch`: their
`page.goto`/`page.evaluate` can throw, so their outcomes are `Except`. -/
structure PageEnv where
  url : String
  pageSpeed : Option SiteSpeed
  seo : Except JsError SeoElements
  schemaBlocks : Except JsError (List (Option SchemaObj))
  robots : FetchOutcome
  sitemap : FetchOutcome
  mobile : Except JsError (String × ℕ)
deriving Repr

/-- `auditPage(url, 'comprehensive')`: runs all five module audits and joins
them with `Promise.all`, merging the result objects by spread.  `Promise.all`
rejects as soon as any constituent promise rejects, so a throw escaping
`auditSEOElements`, `auditSchemaMarkup` or `auditMobileOptimization` makes
the whole page audit fail with that error and discards every other module's
result; only `auditPageSpeed` and `auditCrawlability` errors are contained
(as `siteSpeed = none` resp. the score-60 fallback object). -/
def auditPage (env : PageEnv) : Except JsError PageAudit := do
  let seoData ← env.seo
  let blocks ← env.schemaBlocks
  let (viewportContent, innerWidth) ← env.mobile
  .ok { url := env.url
        results :=
          { siteSpeed := env.pageSpeed
            seoElements := some seoData
            schemaMarkup := some (auditSchemaMarkup blocks)
            crawlability := some (auditCrawlability env.robots env.sitemap)
            mobileOptimization :=
              some (auditMobileOptimization viewportContent innerWidth) } }

/-- The persisted `TechnicalAudit` record assembled by `performAudit`
(`TechnicalAudit.create` call; persistence itself is external). -/
structure TechnicalAuditRecord where
  clinicId : String
  auditType : String
  score : ℤ
  metrics : AuditMetrics
  issues : List Issue
  recommendations : List Recommendation
  rawData : List PageAudit
deriving Repr

/-- `performAudit(options)`: looks up the clinic (throwing when absent),
runs `Promise.all(options.pages.map(url => this.auditPage(url, auditType)))`
— one `auditPage` call per entry of `pages`, any page failure rejecting the
whole audit — then aggregates, scores, derives issues and recommendations,
and assembles the record.  There is no validation of `options.pages`
anywhere: an empty list or a malformed URL string flows straight into the
page audits. -/
def performAudit (clinic : Option String) (clinicId auditType : String)
    (pages : List PageEnv) : Except JsError TechnicalAuditRecord :=
  match clinic with
  | none => .error ⟨"Clinic not found"⟩
  | some _ => do
      let pageAudits ← pages.mapM auditPage
      let aggregatedMetrics := aggregateAuditResults pageAudits
      .ok { clinicId := clinicId
            auditType := auditType
            score := calculateOverallScore aggregatedMetrics
            metrics := aggregatedMetrics
            issues := identifyIssues aggregatedMetrics
            recommendations := generateRecommendations aggregatedMetrics
            rawData := pageAudits }

/-- The job options of `queueAudit(options)`: the priority depends on the
audit type, but `attempts: 2`, exponential backoff and the 10-minute timeout
are fixed for every job, whatever errors it may later fail with. -/
structure JobOptions where
  priority : String
  attempts : ℕ
  backoff : String
  timeoutMs : ℕ
deriving DecidableEq, Repr

/-- `queueAudit(options)`'s queue configuration, as a function of the
requested audit type. -/
def queueAuditJobOptions (auditType : String) : JobOptions :=
  { priority := if auditType = "comprehensive" then "high" else "medium"
    attempts := 2
    backoff := "exponential"
    timeoutMs := 10 * 60 * 1000 }

/-- Number of `auditPage` invocations `performAudit` makes for a given URL in
one run: `options.pages.map(url => this.auditPage(url, auditType))` calls
`auditPage` exactly once per list entry, with no retry loop anywhere in
`performAudit` or `auditPage`. -/
def auditPageInvocations (pages : List PageEnv) (u : String) : ℕ :=
  (pages.filter fun env => env.url = u).length

/-- Upper layer of `performAudit`'s page fan-out: the `.map` callback runs
synchronously for every entry of `options.pages`, and each `auditPage` call
synchronously initiates `puppeteer.launch(...)` before reaching its first
suspension, so by the time `Promise.all` first yields, one browser session
has been started for every requested page and none has been closed (the
`finally { browser.close() }` can only run after the audit's awaited work).
The set of simultaneously open browser sessions therefore reaches exactly
the requested URL list; `performAudit` contains no semaphore, pool, or other
limiting mechanism, and `TechnicalAuditOptions` has no concurrency field. -/
def spawnedBrowserSessions (pages : List PageEnv) : List String :=
  pages.map PageEnv.url

/-! ## Spec-side definitions

The following definitions follow the specification's words, for comparison
against the embedded code.  They are clearly named `spec...` and are never
used to model the code itself. -/

/-- Spec-side crawlability score: "base 70, +20 if robots.txt returns 2xx,
+10 if sitemap.xml returns 2xx and is well-formed XML; caps at 100", with a
fetch error on either recorded as the flag being `false`. -/
def specCrawlabilityScore (robots2xx sitemapOk : Bool) : ℚ :=
  min 100 (70 + (if robots2xx then 20 else 0) + (if sitemapOk then 10 else 0))

/-- Spec-side schema-markup score: the additive type weights "capped at 100,
minus 2 points per malformed block (floor 0)"; the type weights of the spec
coincide with `calculateSchemaScore`'s. -/
def specSchemaMarkupScore (blocks : List (Option SchemaObj)) : ℚ :=
  let schemas := blocks.filterMap id
  let malformed := (blocks.filter Option.isNone).length
  let localBusinessSchema :=
    schemas.any fun s => s.atType = "LocalBusiness" || s.atType = "DentalClinic"
  let dentistSchema :=
    schemas.any fun s => s.atType = "Dentist" || s.atType = "DentalClinic"
  let faqSchema := schemas.any fun s => s.atType = "FAQPage"
  let reviewSchema := schemas.any fun s => s.review || s.aggregateRating
  let organizationSchema := schemas.any fun s => s.atType = "Organization"
  max 0 (min 100 (calculateSchemaScore localBusinessSchema dentistSchema
     faqSchema reviewSchema organizationSchema) - 2 * malformed)

/-- Spec-side per-page composite score: the arithmetic mean of the check
scores of the modules that produced a result for the page (the performance
module's single score being the mean of its desktop and mobile scores);
`none` when no module produced a result, i.e. the page is `unauditable`. -/
def specCompositeScore (r : PageResults) : Option ℚ :=
  let scores : List ℚ :=
    (r.siteSpeed.map fun s => (s.desktopScore + s.mobileScore) / 2).toList ++
    (r.crawlability.map Crawlability.score).toList ++
    (r.schemaMarkup.map SchemaMarkup.score).toList ++
    (r.mobileOptimization.map MobileOptimization.score).toList
  if scores.isEmpty then none else some (scores.sum / scores.length)

/-- Spec-side overall score: the simple arithmetic mean (weight 1 per page)
of the composite scores of exactly the non-unauditable pages. -/
def specOverallScore (pageAudits : List PageAudit) : Option ℚ :=
  let comps := pageAudits.filterMap fun p => specCompositeScore p.results
  if comps.isEmpty then none else some (comps.sum / comps.length)

/-- Rank of an issue severity string, most severe first. -/
def severityRank (s : String) : ℕ :=
  if s = "critical" then 0 else if s = "high" then 1
  else if s = "medium" then 2 else 3

/-- The issue ordering claimed by the specification: by severity, then by
number of affected pages descending, ties broken by category name
alphabetically, then by first-affected-page URL. -/
def issueLE (a b : Issue) : Prop :=
  severityRank a.severity < severityRank b.severity ∨
  (severityRank a.severity = severityRank b.severity ∧
    (b.affectedPages.length < a.affectedPages.length ∨
      (b.affectedPages.length = a.affectedPages.length ∧
        (a.category < b.category ∨
          (a.category = b.category ∧
            a.affectedPages.headD "" ≤ b.affectedPages.headD "")))))

/-! ## Concrete inputs used in counterexamples and witnesses -/

/-- A fully successful page: every category score 100 (all values reachable:
crawlability 100 = 85+10+5, schema 100 = all five types present, mobile 100 =
all four flags). -/
def pageA : PageAudit :=
  { url := "https://a.test/"
    results :=
      { siteSpeed := some ⟨100, 100⟩
        seoElements := none
        schemaMarkup := some ⟨100, true, true, true, true, true, 0⟩
        crawlability := some ⟨100, true, true, 0, 0, 0⟩
        mobileOptimization := some ⟨100, true, true, true, true⟩ } }

/-- A poorly scoring page: Lighthouse scores 0, crawlability fetch failed
(fallback 60), no schema blocks (score 0), mobile score 50. -/
def pageB : PageAudit :=
  { url := "https://b.test/"
    results :=
      { siteSpeed := some ⟨0, 0⟩
        seoElements := none
        schemaMarkup := some ⟨0, false, false, false, false, false, 0⟩
        crawlability := some ⟨60, false, false, 1, 0, 0⟩
        mobileOptimization := some ⟨50, false, false, true, true⟩ } }

/-- A page whose schema-markup check found no LocalBusiness schema, with a
healthy desktop speed score (no performance issue). -/
def pageMissingSchema (u : String) : PageAudit :=
  { url := u
    results :=
      { siteSpeed := some ⟨90, 85⟩
        seoElements := none
        schemaMarkup := some ⟨0, false, false, false, false, false, 0⟩
        crawlability := some ⟨100, true, true, 0, 0, 0⟩
        mobileOptimization := some ⟨100, true, true, true, true⟩ } }

/-- An innocuous SEO extraction result. -/
def seoOk : SeoElements :=
  { title := "Home", metaDescription := some "desc", h1Count := 1
    h2Count := 2, imgCount := 3, imgAltMissing := 0, internalLinks := 4
    externalLinks := 1, canonicalUrl := some "https://a.test/"
    robots := none }

/-- A well-formed LocalBusiness JSON-LD block. -/
def lbBlock : SchemaObj := ⟨"LocalBusiness", false, false⟩

/-- A page environment where only the mobile-optimization module errors (its
`page.goto` throws); the other four modules would all succeed. -/
def envMobileFails : PageEnv :=
  { url := "https://a.test/"
    pageSpeed := some ⟨90, 80⟩
    seo := .ok seoOk
    schemaBlocks := .ok [some lbBlock]
    robots := .ok 200
    sitemap := .ok 200
    mobile := .error renderError }

/-- A page environment whose inspection fails with a navigation timeout
(`page.goto` inside `auditSEOElements` throws `NavigationError`). -/
def envNavFails (u : String) : PageEnv :=
  { url := u
    pageSpeed := none
    seo := .error navigationError
    schemaBlocks := .ok []
    robots := .err
    sitemap := .err
    mobile := .ok ("width=device-width", 375) }

/-- A fully healthy page environment with the given URL. -/
def envOk (u : String) : PageEnv :=
  { url := u
    pageSpeed := some ⟨95, 90⟩
    seo := .ok seoOk
    schemaBlocks := .ok [some lbBlock]
    robots := .ok 200
    sitemap := .ok 200
    mobile := .ok ("width=device-width", 375) }

/-- The JSON-LD block list of the C4 counterexample: one malformed block and
one well-formed LocalBusiness block. -/
def c4blocks : List (Option SchemaObj) := [none, some lbBlock]

/-- The fallback crawlability object returned by `auditCrawlability`'s `catch`. -/
def crawlFallback : Crawlability :=
  { score := 60, robotsTxt := false, sitemapValid := false
    crawlErrors := 1, indexablePages := 0, blockedPages := 0 }

/-! ## Helper lemmas -/

lemma calculateSchemaScore_nonneg (b1 b2 b3 b4 b5 : Bool) :
    0 ≤ calculateSchemaScore b1 b2 b3 b4 b5 := by
  unfold calculateSchemaScore
  split_ifs <;> norm_num

lemma calculateSchemaScore_le_100 (b1 b2 b3 b4 b5 : Bool) :
    calculateSchemaScore b1 b2 b3 b4 b5 ≤ 100 := by
  unfold calculateSchemaScore
  split_ifs <;> norm_num

lemma identifyIssues_eq (m : AuditMetrics) :
    identifyIssues m = [] ∨ identifyIssues m = [perfIssue] ∨
    identifyIssues m = [schemaIssue] ∨
    identifyIssues m = [perfIssue, schemaIssue] := by
  obtain ⟨ss, cr, sm, mo⟩ := m
  unfold identifyIssues
  rcases ss with _ | s <;> rcases sm with _ | d
  · exact Or.inr (Or.inr (Or.inl rfl))
  · cases hb : d.localBusinessSchema
    · exact Or.inr (Or.inr (Or.inl (by simp [hb])))
    · exact Or.inl (by simp [hb])
  · by_cases h : s.desktopScore < 70
    · exact Or.inr (Or.inr (Or.inr (by simp [h])))
    · exact Or.inr (Or.inr (Or.inl (by simp [h])))
  · by_cases h : s.desktopScore < 70 <;> cases hb : d.localBusinessSchema
    · exact Or.inr (Or.inr (Or.inr (by simp [h, hb])))
    · exact Or.inr (Or.inl (by simp [h, hb]))
    · exact Or.inr (Or.inr (Or.inl (by simp [h, hb])))
    · exact Or.inl (by simp [h, hb])

/-! ## Claim theorems -/

/-- Claim C1, counterexample: for two auditable pages — `pageA` with every
category score 100 and `pageB` with category scores 0/60/0/50 — the code's
overall score is 100 (it reads only the first page), while the claimed
simple mean of the two page composite scores is (100 + 27.5)/2 = 63.75. -/
theorem c1_counterexample :
    calculateOverallScore (aggregateAuditResults [pageA, pageB]) = 100 ∧
    specOverallScore [pageA, pageB] = some (255 / 4) ∧
    ((100 : ℚ) ≠ 255 / 4) := by
  refine ⟨?_, ?_, by norm_num⟩
  · norm_num [calculateOverallScore, aggregateAuditResults, pageA, jsRound]
  · norm_num [specOverallScore, specCompositeScore, pageA, pageB,
      List.filterMap_cons, Option.toList]

/-- Claim C1, amended: the overall score is `Math.round` of the mean of the
five category scores of the *first* page only (desktop speed, mobile speed,
crawlability, schema, mobile optimization), each defaulting to 0 when
absent, always divided by 5; every page after the first is ignored by the
aggregation and there is no unauditable exclusion. -/
theorem c1_overall_score_first_page_only (p : PageAudit) (rest : List PageAudit) :
    aggregateAuditResults (p :: rest) = aggregateAuditResults [p] ∧
    calculateOverallScore (aggregateAuditResults (p :: rest)) =
      jsRound ((((p.results.siteSpeed.map SiteSpeed.desktopScore).getD 0) +
        ((p.results.siteSpeed.map SiteSpeed.mobileScore).getD 0) +
        ((p.results.crawlability.map Crawlability.score).getD 0) +
        ((p.results.schemaMarkup.map SchemaMarkup.score).getD 0) +
        ((p.results.mobileOptimization.map MobileOptimization.score).getD 0)) / 5) := by
  refine ⟨rfl, ?_⟩
  simp only [aggregateAuditResults, calculateOverallScore, List.sum_cons,
    List.sum_nil, List.length_cons, List.length_nil]
  norm_num
  congr 1
  ring

/-- Claim C5, counterexample: two pages both failing the schema check for
the same reason (no LocalBusiness schema) produce one issue whose
`affectedPages` is the constant `["Homepage"]` of length 1, not a merged
set of the two affected page URLs of length 2. -/
theorem c5_counterexample :
    identifyIssues (aggregateAuditResults
      [pageMissingSchema "https://a.test/", pageMissingSchema "https://a.test/services"]) =
      [schemaIssue] ∧
    schemaIssue.affectedPages.length = 1 ∧ (1 : ℕ) ≠ 2 := by
  refine ⟨?_, rfl, by norm_num⟩
  norm_num [identifyIssues, aggregateAuditResults, pageMissingSchema]

/-- Claim C5, amended: issues are not derived per page and never merged
across pages: `identifyIssues` emits at most the two fixed issues (a
performance issue and a schema issue) from the aggregated — i.e.
first-page — metrics, each with a constant one-element `affectedPages` list
(`["All pages"]` resp. `["Homepage"]`), so the number of pages sharing a
failure never shows up in an issue's affected-page list. -/
theorem c5_issues_constant_affected_pages (metrics : AuditMetrics) :
    (identifyIssues metrics).length ≤ 2 ∧
    ((identifyIssues metrics).all fun i =>
      decide (i = perfIssue) || decide (i = schemaIssue)) = true ∧
    ((identifyIssues metrics).all fun i =>
      decide (i.affectedPages.length = 1)) = true := by
  rcases identifyIssues_eq metrics with h | h | h | h <;> rw [h] <;>
    refine ⟨by norm_num, ?_, ?_⟩ <;> simp [perfIssue, schemaIssue]

/-- Claim C6, confirmed: the aggregation pipeline
(`aggregateAuditResults` → `calculateOverallScore` / `identifyIssues`) is a
pure function of the `PageAuditResult` list — two runs on the same input
give the same score and the same issue list in the same order — and the
issue list is always sorted by the claimed order: severity first, then
number of affected pages descending, ties by category name and then by
first-affected-page URL. -/
theorem c6_aggregate_deterministic_sorted (pageResults : List PageAudit) :
    (calculateOverallScore (aggregateAuditResults pageResults),
      identifyIssues (aggregateAuditResults pageResults)) =
    (calculateOverallScore (aggregateAuditResults pageResults),
      identifyIssues (aggregateAuditResults pageResults)) ∧
    List.Pairwise issueLE (identifyIssues (aggregateAuditResults pageResults)) := by
  refine ⟨rfl, ?_⟩
  rcases identifyIssues_eq (aggregateAuditResults pageResults) with h | h | h | h <;>
    rw [h]
  · exact List.Pairwise.nil
  · exact List.pairwise_singleton _ _
  · exact List.pairwise_singleton _ _
  · refine List.pairwise_cons.mpr ⟨?_, List.pairwise_singleton _ _⟩
    intro b hb
    rw [List.mem_singleton] at hb
    subst hb
    left
    simp [severityRank, perfIssue, schemaIssue]

/-- Claim C3, counterexample: when both `robots.txt` and `sitemap.xml`
respond but with status 404, the code's crawlability score is 85 — not the
claimed `min(100, 70 + 0 + 0) = 70`, and not an element of the claimed value
set `{70, 80, 90, 100}`. -/
theorem c3_counterexample :
    (auditCrawlability (.ok 404) (.ok 404)).score = 85 ∧
    specCrawlabilityScore false false = 70 ∧ (85 : ℚ) ≠ 70 := by
  refine ⟨?_, ?_, by norm_num⟩ <;>
    norm_num [auditCrawlability, specCrawlabilityScore]

/-- Claim C3, amended: the crawlability score is
`85 + (10 if robots.txt returned exactly 200) + (5 if sitemap.xml returned
exactly 200)` — one of {85, 90, 95, 100}; only status 200 counts (not any
2xx) and no XML well-formedness is checked; a fetch error on either resource
yields the fixed fallback result with score 60 and both flags false, never
an exception escaping the check. -/
theorem c3_crawlability_score :
    (∀ rs ss : ℕ,
      (auditCrawlability (.ok rs) (.ok ss)).score =
        85 + (if rs = 200 then (10 : ℚ) else 0) +
          (if ss = 200 then (5 : ℚ) else 0) ∧
      (auditCrawlability (.ok rs) (.ok ss)).robotsTxt = decide (rs = 200) ∧
      (auditCrawlability (.ok rs) (.ok ss)).sitemapValid = decide (ss = 200)) ∧
    (∀ s, auditCrawlability .err s = crawlFallback) ∧
    (∀ r, auditCrawlability r .err = crawlFallback) ∧
    (∀ r s, (auditCrawlability r s).score = 60 ∨
      (auditCrawlability r s).score = 85 ∨ (auditCrawlability r s).score = 90 ∨
      (auditCrawlability r s).score = 95 ∨ (auditCrawlability r s).score = 100) := by
  refine ⟨fun rs ss => ?_, fun s => ?_, fun r => ?_, fun r s => ?_⟩
  · exact ⟨by simp [auditCrawlability], by simp [auditCrawlability],
      by simp [auditCrawlability]⟩
  · cases s <;> rfl
  · cases r <;> rfl
  · cases r with
    | err => left; rfl
    | ok rs =>
      cases s with
      | err => left; rfl
      | ok ss =>
        simp only [auditCrawlability]
        split_ifs <;> norm_num

/-- Claim C4, counterexample: for a block list with one malformed block and
one LocalBusiness block, the code scores 30 and reports
`validationErrors = 0`, while the claim demands the 2-point malformed-block
penalty (score 28) and the malformed block counted as a validation error. -/
theorem c4_counterexample :
    (auditSchemaMarkup c4blocks).score = 30 ∧
    (auditSchemaMarkup c4blocks).validationErrors = 0 ∧
    specSchemaMarkupScore c4blocks = 28 ∧ (30 : ℚ) ≠ 28 := by
  refine ⟨?_, rfl, ?_, by norm_num⟩
  · simp [auditSchemaMarkup, c4blocks, lbBlock, calculateSchemaScore]
  · simp only [specSchemaMarkupScore, c4blocks, lbBlock]
    simp [calculateSchemaScore]
    norm_num [max_def, min_def]

/-- Claim C4, amended: the schema score is the additive type-weight sum
(30 local-business + 25 dentist + 20 FAQ + 15 review + 10 organization),
which lies in [0, 100] (the cap is vacuous); each malformed JSON-LD block is
skipped without aborting the parsing of the remaining blocks or the check —
the result depends only on the well-formed blocks — but no 2-point penalty
per malformed block is applied and `validationErrors` is always reported as
the literal 0. -/
theorem c4_schema_score :
    ∀ blocks : List (Option SchemaObj),
      (auditSchemaMarkup blocks).validationErrors = 0 ∧
      0 ≤ (auditSchemaMarkup blocks).score ∧
      (auditSchemaMarkup blocks).score ≤ 100 ∧
      auditSchemaMarkup blocks =
        auditSchemaMarkup ((blocks.filterMap id).map some) := by
  intro blocks
  have hfm : ((blocks.filterMap id).map some).filterMap id = blocks.filterMap id := by
    simp [List.filterMap_map]
  refine ⟨rfl, ?_, ?_, ?_⟩
  · exact calculateSchemaScore_nonneg ..
  · exact calculateSchemaScore_le_100 ..
  · simp only [auditSchemaMarkup, hfm]

/-- Claim C10, confirmed: the mobile score is 25 times the number of true
flags among viewportConfiguration, responsiveDesign, touchTargetSize and
mobileFirstIndex; the latter two are unconditionally true, so the score is
always at least 50 and one of {50, 75, 100}, regardless of the page's actual
touch-target sizing or indexing readiness. -/
theorem c10_mobile_score (viewportContent : String) (innerWidth : ℕ) :
    (auditMobileOptimization viewportContent innerWidth).touchTargetSize = true ∧
    (auditMobileOptimization viewportContent innerWidth).mobileFirstIndex = true ∧
    (auditMobileOptimization viewportContent innerWidth).score =
      25 * ((if (auditMobileOptimization viewportContent innerWidth).viewportConfiguration
               then 1 else 0) +
            (if (auditMobileOptimization viewportContent innerWidth).responsiveDesign
               then 1 else 0) +
            (if (auditMobileOptimization viewportContent innerWidth).touchTargetSize
               then 1 else 0) +
            (if (auditMobileOptimization viewportContent innerWidth).mobileFirstIndex
               then 1 else 0)) ∧
    50 ≤ (auditMobileOptimization viewportContent innerWidth).score ∧
    ((auditMobileOptimization viewportContent innerWidth).score = 50 ∨
     (auditMobileOptimization viewportContent innerWidth).score = 75 ∨
     (auditMobileOptimization viewportContent innerWidth).score = 100) := by
  simp only [auditMobileOptimization]
  rcases Bool.eq_false_or_eq_true
      (jsIncludes viewportContent "width=device-width") with h1 | h1 <;>
    rcases Bool.eq_false_or_eq_true (decide (innerWidth ≤ 768)) with h2 | h2 <;>
    simp [h1, h2] <;> norm_num

/-- Claim C2, counterexample: with exactly one of the check modules erroring
(the mobile-optimization module; page speed, SEO, schema and crawlability
all succeed), `Promise.all` rejects and the whole page audit fails with that
error — no CheckResults are present at all and no composite score or
`unauditable` flag is produced, contradicting the claimed partial-failure
containment. -/
theorem c2_counterexample :
    auditPage envMobileFails = Except.error renderError := rfl

/-- Claim C2, amended: error containment in `auditPage` is asymmetric.
Failures of the page-speed module and of the crawlability fetches are
contained (as `siteSpeed = none` resp. the fallback crawlability object) and
the other modules' results remain present; but a throw escaping the
SEO-elements, schema-markup or mobile-optimization module rejects the whole
page audit with that error, discarding every other module's result.  There
is no per-page composite score and no `unauditable` flag. -/
theorem c2_partial_failure :
    (∀ (u : String) (sd : SeoElements) (blocks : List (Option SchemaObj))
        (sit : FetchOutcome) (vc : String) (iw : ℕ),
      auditPage ⟨u, none, .ok sd, .ok blocks, .err, sit, .ok (vc, iw)⟩ =
        .ok ⟨u, ⟨none, some sd, some (auditSchemaMarkup blocks),
          some crawlFallback, some (auditMobileOptimization vc iw)⟩⟩) ∧
    (∀ (u : String) (ps : Option SiteSpeed) (sd : SeoElements)
        (blocks : List (Option SchemaObj)) (r s : FetchOutcome) (e : JsError),
      auditPage ⟨u, ps, .ok sd, .ok blocks, r, s, .error e⟩ = .error e) ∧
    (∀ (u : String) (ps : Option SiteSpeed) (e : JsError)
        (sb : Except JsError (List (Option SchemaObj))) (r s : FetchOutcome)
        (mob : Except JsError (String × ℕ)),
      auditPage ⟨u, ps, .error e, sb, r, s, mob⟩ = .error e) := by
  refine ⟨fun u sd blocks sit vc iw => ?_, fun u ps sd blocks r s e => ?_,
    fun u ps e sb r s mob => ?_⟩
  · cases sit <;> rfl
  · rfl
  · rfl

/-- Claim C7, counterexample: `performAudit` called with an empty `pages`
list does not fail with `InvalidRequestError` — it completes successfully
with overall score 0, a single missing-schema issue and no recommendations. -/
theorem c7_counterexample :
    performAudit (some "Clinic One") "clinic-1" "comprehensive" [] =
      .ok ⟨"clinic-1", "comprehensive", 0, ⟨none, none, none, none⟩,
        [schemaIssue], [], []⟩ := by
  simp only [performAudit, List.mapM_nil, pure_bind]
  norm_num [aggregateAuditResults, calculateOverallScore, identifyIssues,
    generateRecommendations, jsRound]

/-- Claim C7, amended: `performAudit` performs no validation of its `pages`
argument and the service defines no `InvalidRequestError`: an empty list
flows through the whole pipeline and yields a successful audit record with
score 0, and a malformed URL string is handed to the page audit as-is — an
inspection failure there (e.g. a `NavigationError`) propagates unchanged out
of `performAudit` instead of an `InvalidRequestError` being raised first. -/
theorem c7_no_input_validation :
    (∀ c clinicId auditType : String,
      performAudit (some c) clinicId auditType [] =
        .ok ⟨clinicId, auditType, 0, ⟨none, none, none, none⟩,
          [schemaIssue], [], []⟩) ∧
    (∀ c clinicId auditType u : String,
      performAudit (some c) clinicId auditType [envNavFails u] =
        .error navigationError) := by
  refine ⟨fun c clinicId auditType => ?_, fun c clinicId auditType u => rfl⟩
  simp only [performAudit, List.mapM_nil, pure_bind]
  norm_num [aggregateAuditResults, calculateOverallScore, identifyIssues,
    generateRecommendations, jsRound]

/-- Claim C8, counterexample: a URL whose inspection throws
`NavigationError` gets exactly one `auditPage` invocation in the run — not
the claimed two — and is not marked unauditable: the whole audit rejects
with the error instead. -/
theorem c8_counterexample :
    auditPageInvocations [envNavFails "https://dead.test/"] "https://dead.test/" = 1 ∧
    (1 : ℕ) ≠ 2 ∧
    performAudit (some "Clinic One") "clinic-1" "comprehensive"
      [envNavFails "https://dead.test/"] = .error navigationError := by
  refine ⟨?_, by norm_num, rfl⟩
  simp [auditPageInvocations, envNavFails]

/-- Claim C8, amended: there is no per-page, error-type-sensitive retry.
Within a run, `performAudit` invokes `auditPage` exactly once per entry of
`pages`, and a page failing with any error — `NavigationError` or
`RenderError` alike — rejects the whole audit rather than being retried or
marked unauditable.  Retry exists only at the job level: `queueAudit`
configures every job with `attempts: 2` and exponential backoff, regardless
of audit type and of whatever error the job may later fail with. -/
theorem c8_no_per_page_retry :
    (∀ auditType : String, (queueAuditJobOptions auditType).attempts = 2 ∧
      (queueAuditJobOptions auditType).backoff = "exponential") ∧
    (∀ (pages : List PageEnv) (u : String),
      auditPageInvocations pages u = pages.countP fun env => env.url = u) ∧
    (∀ (c clinicId auditType u : String) (ps : Option SiteSpeed)
        (sb : Except JsError (List (Option SchemaObj))) (r s : FetchOutcome)
        (mob : Except JsError (String × ℕ)) (e : JsError),
      performAudit (some c) clinicId auditType [⟨u, ps, .error e, sb, r, s, mob⟩] =
        .error e) := by
  refine ⟨fun auditType => ⟨rfl, rfl⟩, fun pages u => ?_, fun _ _ _ _ _ _ _ _ _ _ => rfl⟩
  simp [auditPageInvocations, List.countP_eq_length_filter]

/-- Claim C9, counterexample: `performAudit` over five URLs starts five
browser sessions at once — the eager `.map` plus `Promise.all` spawn one
session per requested page before any completes — exceeding the claimed
ceiling of 4 (no concurrency limit of any kind exists in the code, nor a
concurrency option in `TechnicalAuditOptions`). -/
theorem c9_counterexample :
    (spawnedBrowserSessions [envOk "https://a.test/1", envOk "https://a.test/2",
      envOk "https://a.test/3", envOk "https://a.test/4",
      envOk "https://a.test/5"]).length = 5 ∧ ¬(5 : ℕ) ≤ 4 :=
  ⟨rfl, by norm_num⟩

/-- Claim C9, amended: page-audit concurrency is unbounded: every requested
URL's audit is started simultaneously by
`Promise.all(options.pages.map(url => this.auditPage(url, auditType)))`, so
the number of simultaneously open browser sessions equals the number of
requested pages, whatever that number is. -/
theorem c9_unbounded_concurrency (pages : List PageEnv) :
    spawnedBrowserSessions pages = pages.map PageEnv.url ∧
    (spawnedBrowserSessions pages).length = pages.length := by
  refine ⟨rfl, ?_⟩
  simp [spawnedBrowserSessions]
